import Mathlib

/-!
Verification of the alluvial repository: shallow embedding of the
CSV-to-Sankey graph transformers, the data loader with its fallback
dataset, and the hover-highlight state machine of the three page
variants (test2.vue, test4.vue, and the unnamed page, called P0 here).

JS numbers that can be NaN are modelled as `Option Int` (`none` = NaN);
CSS opacity and stroke-width values are modelled as exact rationals.
-/

/-! ## Models of the JavaScript primitives used by the pages -/

/-- Model of `String.prototype.split` with the one-character separator `c`,
on the character list of the string: always returns at least one field,
`split` of the empty string is `[""]`. -/
def splitCharsOn (c : Char) : List Char → List (List Char)
  | [] => [[]]
  | x :: xs =>
    match splitCharsOn c xs with
    | [] => [[]]
    | y :: ys => if x = c then [] :: y :: ys else (x :: y) :: ys

/-- Model of `s.split(';')` from test4.vue. -/
def jsSplitSemi (s : String) : List String :=
  (splitCharsOn ';' s.data).map (fun cs => String.mk cs)

/-- Model of `String.prototype.trim`: strip whitespace from both ends. -/
def jsTrim (s : String) : String :=
  String.mk (((s.data.dropWhile Char.isWhitespace).reverse.dropWhile Char.isWhitespace).reverse)

/-- Decimal value of a digit list (most significant first). -/
def digitsToNat (cs : List Char) : Nat :=
  cs.foldl (fun acc c => 10 * acc + (c.toNat - Char.toNat '0')) 0

/-- Helper for `jsParseInt`: parse the leading run of decimal digits,
`none` when there is none. -/
def parseLeadingDigits (sign : Int) (cs : List Char) : Option Int :=
  match cs.takeWhile Char.isDigit with
  | [] => none
  | ds => some (sign * (digitsToNat ds : Int))

/-- Model of `parseInt(s)` (radix 10): skip leading whitespace, optional
sign, then the leading digit run; `none` models the NaN result. -/
def jsParseInt (s : String) : Option Int :=
  match s.data.dropWhile Char.isWhitespace with
  | '-' :: rest => parseLeadingDigits (-1) rest
  | '+' :: rest => parseLeadingDigits 1 rest
  | cs => parseLeadingDigits 1 cs

/-- Model of `Array.prototype.indexOf`: first index of `x`, `-1` when absent. -/
def jsIndexOf (xs : List String) (x : String) : Int :=
  match xs with
  | [] => -1
  | y :: ys =>
    if y = x then 0
    else
      let r := jsIndexOf ys x
      if r = -1 then -1 else r + 1

/-- Helper for `dedupFirst`: drop elements already seen, keeping first
occurrences in order. -/
def dedupFirstAux (seen : List String) : List String → List String
  | [] => []
  | x :: xs => if x ∈ seen then dedupFirstAux seen xs else x :: dedupFirstAux (x :: seen) xs

/-- Model of `[...new Set(xs)]`: deduplicate keeping the first occurrence
of each value, in first-seen order (JS `Set` iterates in insertion order). -/
def dedupFirst (xs : List String) : List String := dedupFirstAux [] xs

/-- Stable insertion used by `jsSort`. -/
def jsInsert {α : Type} (le : α → α → Bool) (x : α) : List α → List α
  | [] => [x]
  | y :: ys => if le x y then x :: y :: ys else y :: jsInsert le x ys

/-- Model of `Array.prototype.sort(cmp)` for a consistent comparator:
a stable sort (ES2019 requires sort stability), as a stable insertion sort. -/
def jsSort {α : Type} (le : α → α → Bool) : List α → List α
  | [] => []
  | x :: xs => jsInsert le x (jsSort le xs)

/-! ## The shared CSV row shape of test2.vue and test4.vue
(columns Theme, Year, Title, Description per `CSV_CONFIG.columns`). -/

/-- A CSV row as both transformers of test2.vue / test4.vue consume it. -/
structure Row where
  theme : String
  year : String
  title : String
  descr : String
deriving DecidableEq

/-- Model of the sort comparator of test4.vue `transformCSVToSankey`
(lines 119-122): compare by `parseInt(Year)`, ties broken by
`localeCompare` on the raw Theme string (modelled as code-point string
comparison). A NaN year difference is treated as equal, as the ES sort
specification maps a NaN comparator result to `+0`. -/
def rowCompare (a b : Row) : Ordering :=
  match jsParseInt a.year, jsParseInt b.year with
  | some ya, some yb => if ya = yb then compare a.theme b.theme else compare ya yb
  | _, _ => Ordering.eq

/-- The boolean order fed to the stable sort. -/
def rowLE (a b : Row) : Bool := !(rowCompare a b == Ordering.gt)

/-- Model of `[...csvData].sort(...)` in test4.vue. -/
def jsSortRows (rows : List Row) : List Row := jsSort rowLE rows

/-! ## test2.vue : single-theme transformer -/

namespace T2

/-- A node of the dataset built by test2.vue `transformCSVToSankey`
(the source field `type` is called `ntype` here, `type` being reserved). -/
structure DNode where
  id : Nat
  name : String
  ntype : String
  x_position : Nat
deriving DecidableEq

/-- A link of the dataset built by test2.vue `transformCSVToSankey`.
`source`/`target` are `Int` because `indexOf` can return `-1`. -/
structure DLink where
  source : Int
  target : Int
  value : Nat
  description : String
  fullDescription : String
  year : String
  theme : String
deriving DecidableEq

/-- The node/link dataset handed to the Sankey layout. -/
structure Dataset where
  nodes : List DNode
  links : List DLink
deriving DecidableEq

/-- test2.vue lines 93-128: themes become nodes `0..k-1`, years nodes
`k..k+m-1`, and every CSV row becomes one link from its theme to its year. -/
def transformCSVToSankey (csvData : List Row) (themes years : List String) : Dataset :=
  { nodes :=
      (themes.enum.map fun p =>
        { id := p.1, name := p.2, ntype := "theme", x_position := 0 })
      ++ (years.enum.map fun p =>
        { id := themes.length + p.1, name := p.2, ntype := "year", x_position := 1 }),
    links := csvData.map fun row =>
      { source := jsIndexOf themes row.theme,
        target := (themes.length : Int) + jsIndexOf years row.year,
        value := 1,
        description := row.title,
        fullDescription := row.descr,
        year := row.year,
        theme := row.theme } }

/-- test2.vue loadData line 67: `[...new Set(csvData.map(row => row.Theme))]`. -/
def loaderThemes (rows : List Row) : List String := dedupFirst (rows.map fun r => r.theme)

/-- test2.vue loadData line 68: `[...new Set(csvData.map(row => row.Year))]`. -/
def loaderYears (rows : List Row) : List String := dedupFirst (rows.map fun r => r.year)

end T2

/-! ## test4.vue : multi-theme transformer -/

namespace T4

/-- A node of the dataset built by test4.vue `transformCSVToSankey`;
event nodes additionally carry year/title/description, theme nodes do not
(absent JS properties are `none`). -/
structure DNode where
  id : Nat
  name : String
  ntype : String
  x_position : Nat
  year : Option Int := none
  title : Option String := none
  descr : Option String := none
deriving DecidableEq

/-- A link of the dataset built by test4.vue `transformCSVToSankey`;
`year` is `parseInt(row.Year)`, hence possibly NaN. -/
structure DLink where
  source : Int
  target : Int
  value : Nat
  description : String
  fullDescription : String
  year : Option Int
  theme : String
deriving DecidableEq

/-- The node/link dataset handed to the Sankey layout. -/
structure Dataset where
  nodes : List DNode
  links : List DLink
deriving DecidableEq

/-- test4.vue line 148: `row.Theme.split(';').map(t => t.trim())`. -/
def rowThemes (row : Row) : List String := (jsSplitSemi row.theme).map jsTrim

/-- The body of the `eventThemes.forEach` loop (test4.vue lines 152-167):
a link when the theme is found, nothing (plus a console warning) otherwise. -/
def linkOfTheme (themes : List String) (eventIndex : Nat) (row : Row) (t : String) :
    Option DLink :=
  if jsIndexOf themes t ≠ -1 then
    some { source := jsIndexOf themes t,
           target := (eventIndex : Int),
           value := 1,
           description := row.title,
           fullDescription := row.descr,
           year := jsParseInt row.year,
           theme := t }
  else none

/-- All links pushed for one row of `sortedData` (test4.vue lines 146-168). -/
def linksForRow (themes : List String) (eventIndex : Nat) (row : Row) : List DLink :=
  (rowThemes row).filterMap (linkOfTheme themes eventIndex row)

/-- test4.vue lines 118-173: themes become nodes `0..k-1`; the rows,
sorted by year then theme, become event nodes `k..k+m-1`; each row
contributes one link per resolvable listed theme. -/
def transformCSVToSankey (csvData : List Row) (themes : List String) : Dataset :=
  let sortedData := jsSortRows csvData
  { nodes :=
      (themes.enum.map fun p =>
        { id := p.1, name := p.2, ntype := "theme", x_position := 0 })
      ++ (sortedData.enum.map fun p =>
        { id := themes.length + p.1,
          name := p.2.year ++ " - " ++ p.2.title,
          ntype := "event", x_position := 1,
          year := jsParseInt p.2.year,
          title := some p.2.title,
          descr := some p.2.descr }),
    links := sortedData.enum.flatMap fun p => linksForRow themes (themes.length + p.1) p.2 }

/-- The theme values reported by `console.warn` in the `else` branch of
the forEach loop (test4.vue line 165), in emission order. -/
def transformWarnings (csvData : List Row) (themes : List String) : List String :=
  (jsSortRows csvData).flatMap fun row =>
    (rowThemes row).filter fun t => jsIndexOf themes t == -1

/-- test4.vue loadData lines 94-95: split every row's Theme field on `;`,
trim, and deduplicate in first-seen order. -/
def loaderThemes (rows : List Row) : List String :=
  dedupFirst ((rows.map fun r => r.theme).flatMap fun s => (jsSplitSemi s).map jsTrim)

end T4

/-! ## The unnamed page (src/unnamed/part_000): loader, transform, fallback -/

namespace P0

/-- Model of `x || ''` on a possibly absent string property. -/
def jsOrEmpty : Option String → String
  | none => ""
  | some s => if s = "" then "" else s

/-- A CSV row of `/data/historical-data.csv` as part_000 consumes it
(the source column `type` is called `rtype` here; `description` may be
absent, the other columns are read unconditionally). -/
structure PRow where
  rtype : String
  id : String
  name : String
  x_position : String
  source : String
  target : String
  value : String
  descr : Option String
deriving DecidableEq

/-- A node of the part_000 dataset; numeric fields come from `parseInt`
(`none` = NaN), while the hardcoded fallback uses literal numbers. -/
structure PNode where
  id : Option Int
  name : String
  ntype : String
  x_position : Option Int
deriving DecidableEq

/-- A link of the part_000 dataset. -/
structure PLink where
  source : Option Int
  target : Option Int
  value : Option Int
  descr : String
deriving DecidableEq

/-- The node/link dataset of part_000. -/
structure PDataset where
  nodes : List PNode
  links : List PLink
deriving DecidableEq

/-- part_000 lines 74-79: split the rows by their `type` column. -/
def parseCSVData (csvData : List PRow) : List PRow × List PRow :=
  (csvData.filter fun r => r.rtype == "node", csvData.filter fun r => r.rtype == "link")

/-- part_000 lines 81-96: parse the numeric columns; a node is a theme
exactly when its `x_position` column is the string "0". -/
def transformData (nodes links : List PRow) : PDataset :=
  { nodes := nodes.map fun node =>
      { id := jsParseInt node.id,
        name := node.name,
        ntype := if node.x_position = "0" then "theme" else "decade",
        x_position := jsParseInt node.x_position },
    links := links.map fun link =>
      { source := jsParseInt link.source,
        target := jsParseInt link.target,
        value := jsParseInt link.value,
        descr := jsOrEmpty link.descr } }

/-- The hardcoded fallback dataset of `useFallbackData` (part_000
lines 98-132): 4 theme nodes, 5 decade nodes, 14 links. -/
def fallbackData : PDataset :=
  { nodes :=
      [ { id := some 0, name := "Industrial Revolution", ntype := "theme", x_position := some 0 },
        { id := some 1, name := "World Wars", ntype := "theme", x_position := some 0 },
        { id := some 2, name := "Colonialism", ntype := "theme", x_position := some 0 },
        { id := some 3, name := "Economic Crisis", ntype := "theme", x_position := some 0 },
        { id := some 4, name := "1900-1910", ntype := "decade", x_position := some 1 },
        { id := some 5, name := "1910-1920", ntype := "decade", x_position := some 1 },
        { id := some 6, name := "1920-1930", ntype := "decade", x_position := some 1 },
        { id := some 7, name := "1930-1940", ntype := "decade", x_position := some 1 },
        { id := some 8, name := "1940-1950", ntype := "decade", x_position := some 1 } ],
    links :=
      [ { source := some 0, target := some 4, value := some 25, descr := "Industrial Revolution to 1900s" },
        { source := some 0, target := some 5, value := some 20, descr := "Industrial Revolution to 1910s" },
        { source := some 0, target := some 6, value := some 15, descr := "Industrial Revolution to 1920s" },
        { source := some 1, target := some 5, value := some 30, descr := "World Wars to 1910s" },
        { source := some 1, target := some 7, value := some 35, descr := "World Wars to 1930s" },
        { source := some 1, target := some 8, value := some 40, descr := "World Wars to 1940s" },
        { source := some 2, target := some 4, value := some 20, descr := "Colonialism to 1900s" },
        { source := some 2, target := some 5, value := some 18, descr := "Colonialism to 1910s" },
        { source := some 2, target := some 6, value := some 15, descr := "Colonialism to 1920s" },
        { source := some 2, target := some 7, value := some 12, descr := "Colonialism to 1930s" },
        { source := some 2, target := some 8, value := some 8, descr := "Colonialism to 1940s" },
        { source := some 3, target := some 6, value := some 25, descr := "Economic Crisis to 1920s" },
        { source := some 3, target := some 7, value := some 45, descr := "Economic Crisis to 1930s" },
        { source := some 3, target := some 8, value := some 20, descr := "Economic Crisis to 1940s" } ] }

/-- Outcome of `await d3.csv(...)`: either a rejection (its message) or
the parsed row array. -/
inductive FetchResult
  | fetchError (msg : String)
  | fetched (rows : List PRow)

/-- The component state written by `loadData`/`useFallbackData`:
the loading flag, the user-visible error message, the current dataset,
and the dataset passed to `createSankeyDiagram`. -/
structure LoadState where
  loading : Bool
  error : Option String
  currentData : Option PDataset
  rendered : Option PDataset
deriving DecidableEq

/-- part_000 lines 46-72 plus `useFallbackData` lines 98-132: on a
successful non-empty fetch with at least one node and one link row, the
transformed dataset is stored and rendered; every other path is caught
at the top level, records `err.message`, and substitutes the fallback. -/
def loadData : FetchResult → LoadState
  | .fetchError msg =>
      { loading := false, error := some msg,
        currentData := some fallbackData, rendered := some fallbackData }
  | .fetched rows =>
      if rows.length > 0 then
        let parsed := parseCSVData rows
        if parsed.1.length > 0 ∧ parsed.2.length > 0 then
          let sankeyData := transformData parsed.1 parsed.2
          { loading := false, error := none,
            currentData := some sankeyData, rendered := some sankeyData }
        else
          { loading := false, error := some "Invalid or empty CSV data",
            currentData := some fallbackData, rendered := some fallbackData }
      else
        { loading := false, error := some "Invalid or empty CSV data",
          currentData := some fallbackData, rendered := some fallbackData }

/-- The failure cases of the fetch path of `loadData`: a rejected fetch,
an empty result, or a result without node rows or without link rows. -/
def LoadFailed : FetchResult → Prop
  | .fetchError _ => True
  | .fetched rows =>
      rows.length = 0
      ∨ (parseCSVData rows).1.length = 0
      ∨ (parseCSVData rows).2.length = 0

end P0

/-! ## Post-layout element data for the highlight state machine

The d3-sankey layout replaces each link's `source`/`target` by node
objects and assigns `width` to links and `x0`/`x1`/`index` to nodes.
The highlight handlers only read `source.index`, `target.index`,
`width`, `x0`, `index` — and, in the buggy label filters of test2 and
part_000, a property `x` that the layout never assigns (nodes only get
`x0`/`x1`), so it is `none` on every real datum. -/

/-- A laid-out link as seen by the hover handlers. -/
structure SLink where
  index : Nat
  src : Nat
  tgt : Nat
  width : ℚ
deriving DecidableEq

/-- A laid-out node as seen by the hover handlers (also the datum bound
to its labels). -/
structure SNode where
  index : Nat
  x0 : ℚ
  x : Option ℚ := none
deriving DecidableEq

/-- JS `a.x < b` when `a.x` may be undefined: NaN comparisons are false. -/
def jsLtU (a : Option ℚ) (b : ℚ) : Bool :=
  match a with
  | none => false
  | some v => v < b

/-- JS `a.x >= b` when `a.x` may be undefined: NaN comparisons are false. -/
def jsGeU (a : Option ℚ) (b : ℚ) : Bool :=
  match a with
  | none => false
  | some v => b ≤ v

/-- Model of `selection.filter(p).style(v)`: update the styled value on
the elements matching `p`, leave the rest unchanged. -/
def setWhere {α : Type} (p : α → Bool) (v : α → ℚ) (f : α → ℚ) : α → ℚ :=
  fun a => if p a then v a else f a

/-! ## test2.vue : highlight state machine -/

namespace T2

/-- The visual state the hover handlers of test2.vue mutate: opacity and
stroke-width of every link, opacity of every node rectangle and label. -/
structure Style where
  linkOp : SLink → ℚ
  linkSW : SLink → ℚ
  nodeOp : SNode → ℚ
  labelOp : SNode → ℚ

/-- The state at element creation (test2.vue lines 197-247): links get
opacity 0.7 and stroke-width `max(2, width)`; nodes and labels are
created with no opacity attribute, whose SVG default is 1. -/
def initialStyle : Style :=
  { linkOp := fun _ => 0.7,
    linkSW := fun l => max 2 l.width,
    nodeOp := fun _ => 1,
    labelOp := fun _ => 1 }

/-- test2.vue lines 318-338 (`highlightThemeFlows`): fade all links to
0.1, raise links out of the hovered theme to 0.9 with a thicker stroke,
fade the other theme nodes to 0.3 and the year nodes to 0.7, and fade
labels matching `label.x < width/2 && label.index !== themeIndex` —
a filter that never matches since the bound data has no `x` property. -/
def highlightThemeFlows (themeIndex : Nat) (width : ℚ) (s : Style) : Style :=
  let s1 : Style := { s with linkOp := fun _ => 0.1 }
  let s2 : Style := { s1 with
    linkOp := setWhere (fun l => l.src == themeIndex) (fun _ => 0.9) s1.linkOp,
    linkSW := setWhere (fun l => l.src == themeIndex) (fun l => max 3 (l.width + 1)) s1.linkSW }
  let s3 : Style := { s2 with
    nodeOp := setWhere (fun n => decide (n.x0 < width / 2) && n.index != themeIndex)
      (fun _ => 0.3) s2.nodeOp }
  let s4 : Style := { s3 with
    nodeOp := setWhere (fun n => decide (width / 2 ≤ n.x0)) (fun _ => 0.7) s3.nodeOp }
  { s4 with
    labelOp := setWhere (fun n => jsLtU n.x (width / 2) && n.index != themeIndex)
      (fun _ => 0.3) s4.labelOp }

/-- test2.vue lines 341-361 (`highlightYearFlows`): the symmetric rule
keyed on `target.index`, with the same vacuous label filter. -/
def highlightYearFlows (yearIndex : Nat) (width : ℚ) (s : Style) : Style :=
  let s1 : Style := { s with linkOp := fun _ => 0.1 }
  let s2 : Style := { s1 with
    linkOp := setWhere (fun l => l.tgt == yearIndex) (fun _ => 0.9) s1.linkOp,
    linkSW := setWhere (fun l => l.tgt == yearIndex) (fun l => max 3 (l.width + 1)) s1.linkSW }
  let s3 : Style := { s2 with
    nodeOp := setWhere (fun n => decide (width / 2 ≤ n.x0) && n.index != yearIndex)
      (fun _ => 0.3) s2.nodeOp }
  let s4 : Style := { s3 with
    nodeOp := setWhere (fun n => decide (n.x0 < width / 2)) (fun _ => 0.7) s3.nodeOp }
  { s4 with
    labelOp := setWhere (fun n => jsGeU n.x (width / 2) && n.index != yearIndex)
      (fun _ => 0.3) s4.labelOp }

/-- The link tooltip `mouseenter` handler (test2.vue lines 252-257):
the hovered link alone gets opacity 1 and stroke-width `max(4, width+2)`. -/
def tooltipEnter (linkIndex : Nat) (s : Style) : Style :=
  { s with
    linkOp := setWhere (fun l => l.index == linkIndex) (fun _ => 1) s.linkOp,
    linkSW := setWhere (fun l => l.index == linkIndex) (fun l => max 4 (l.width + 2)) s.linkSW }

/-- The link tooltip `mouseleave` handler (test2.vue lines 275-283). -/
def tooltipLeave (linkIndex : Nat) (s : Style) : Style :=
  { s with
    linkOp := setWhere (fun l => l.index == linkIndex) (fun _ => 0.7) s.linkOp,
    linkSW := setWhere (fun l => l.index == linkIndex) (fun l => max 2 l.width) s.linkSW }

/-- test2.vue lines 364-370 (`resetHighlighting`): unconditionally set
every link to opacity 0.7 and stroke-width `max(2, width)`, every node
and label to opacity 1, ignoring the previous state. -/
def resetHighlighting (_s : Style) : Style :=
  { linkOp := fun _ => 0.7,
    linkSW := fun l => max 2 l.width,
    nodeOp := fun _ => 1,
    labelOp := fun _ => 1 }

/-- The hover transitions the test2.vue page can fire. -/
inductive Trans
  | themeHover (themeIndex : Nat)
  | yearHover (yearIndex : Nat)
  | linkEnter (linkIndex : Nat)
  | linkLeave (linkIndex : Nat)
  | reset

/-- One transition step. -/
def applyTrans (width : ℚ) : Trans → Style → Style
  | .themeHover i => highlightThemeFlows i width
  | .yearHover i => highlightYearFlows i width
  | .linkEnter i => tooltipEnter i
  | .linkLeave i => tooltipLeave i
  | .reset => resetHighlighting

/-- A whole sequence of transitions, applied in order. -/
def applyAll (width : ℚ) (ts : List Trans) (s : Style) : Style :=
  ts.foldl (fun st t => applyTrans width t st) s

end T2

/-! ## test4.vue : highlight state machine -/

namespace T4

/-- CHART_CONFIG.defaultOpacity (test4.vue line 25). -/
def defaultOpacity : ℚ := 0.5

/-- CHART_CONFIG.linkOpacityHover (test4.vue line 26). -/
def linkOpacityHover : ℚ := 1

/-- CHART_CONFIG.backgroundOpacity (test4.vue line 27). -/
def backgroundOpacity : ℚ := 0.1

/-- CHART_CONFIG.nodeOpacityHighlight (test4.vue line 28). -/
def nodeOpacityHighlight : ℚ := 0.9

/-- The visual state the hover handlers of test4.vue mutate; test4.vue
keeps three separate label selections (theme, year, title labels). -/
structure Style where
  linkOp : SLink → ℚ
  linkSW : SLink → ℚ
  nodeOp : SNode → ℚ
  themeLabelOp : SNode → ℚ
  yearLabelOp : SNode → ℚ
  titleLabelOp : SNode → ℚ

/-- The state at element creation (test4.vue lines 249-343): links get
opacity `defaultOpacity` and stroke-width `max(4, width+2)`; nodes and
labels are created with no opacity attribute, whose SVG default is 1. -/
def initialStyle : Style :=
  { linkOp := fun _ => defaultOpacity,
    linkSW := fun l => max 4 (l.width + 2),
    nodeOp := fun _ => 1,
    themeLabelOp := fun _ => 1,
    yearLabelOp := fun _ => 1,
    titleLabelOp := fun _ => 1 }

/-- test4.vue lines 403-419 (`highlightThemeFlows`): fade all links to
`backgroundOpacity`, raise links out of the hovered theme to
`nodeOpacityHighlight` (the stroke-width is not touched), fade all other
nodes — theme and event alike — to `backgroundOpacity`, and fade the
other theme labels; year and title labels are not touched. -/
def highlightThemeFlows (themeIndex : Nat) (width : ℚ) (s : Style) : Style :=
  let s1 : Style := { s with linkOp := fun _ => backgroundOpacity }
  let s2 : Style := { s1 with
    linkOp := setWhere (fun l => l.src == themeIndex) (fun _ => nodeOpacityHighlight) s1.linkOp }
  let s3 : Style := { s2 with
    nodeOp := setWhere (fun n => decide (n.x0 < width / 2) && n.index != themeIndex)
      (fun _ => backgroundOpacity) s2.nodeOp }
  let s4 : Style := { s3 with
    nodeOp := setWhere (fun n => decide (width / 2 ≤ n.x0)) (fun _ => backgroundOpacity) s3.nodeOp }
  { s4 with
    themeLabelOp := setWhere (fun n => n.index != themeIndex)
      (fun _ => backgroundOpacity) s4.themeLabelOp }

/-- test4.vue lines 421-438 (`highlightEventFlows`): symmetric rule keyed
on `target.index`; the year and title labels of the other events fade. -/
def highlightEventFlows (eventIndex : Nat) (width : ℚ) (s : Style) : Style :=
  let s1 : Style := { s with linkOp := fun _ => backgroundOpacity }
  let s2 : Style := { s1 with
    linkOp := setWhere (fun l => l.tgt == eventIndex) (fun _ => nodeOpacityHighlight) s1.linkOp }
  let s3 : Style := { s2 with
    nodeOp := setWhere (fun n => decide (width / 2 ≤ n.x0) && n.index != eventIndex)
      (fun _ => backgroundOpacity) s2.nodeOp }
  let s4 : Style := { s3 with
    nodeOp := setWhere (fun n => decide (n.x0 < width / 2)) (fun _ => backgroundOpacity) s3.nodeOp }
  { s4 with
    yearLabelOp := setWhere (fun n => n.index != eventIndex)
      (fun _ => backgroundOpacity) s4.yearLabelOp,
    titleLabelOp := setWhere (fun n => n.index != eventIndex)
      (fun _ => backgroundOpacity) s4.titleLabelOp }

/-- The link tooltip `mouseenter` handler (test4.vue lines 356-359):
the hovered link alone gets `linkOpacityHover` (stroke color changes
are not modelled; the stroke-width is not touched). -/
def tooltipEnter (linkIndex : Nat) (s : Style) : Style :=
  { s with
    linkOp := setWhere (fun l => l.index == linkIndex) (fun _ => linkOpacityHover) s.linkOp }

/-- The link tooltip `mouseleave` handler (test4.vue lines 350-353). -/
def tooltipLeave (linkIndex : Nat) (s : Style) : Style :=
  { s with
    linkOp := setWhere (fun l => l.index == linkIndex) (fun _ => defaultOpacity) s.linkOp }

/-- test4.vue lines 440-451 (`resetHighlighting`): set every link and
every node to `defaultOpacity` (0.5) and every label to opacity 1; the
stroke-width is left as it is. Nodes are created with no opacity
attribute (effective value 1), so this is not the pre-hover state. -/
def resetHighlighting (s : Style) : Style :=
  { s with
    linkOp := fun _ => defaultOpacity,
    nodeOp := fun _ => defaultOpacity,
    themeLabelOp := fun _ => 1,
    yearLabelOp := fun _ => 1,
    titleLabelOp := fun _ => 1 }

/-- The hover transitions the test4.vue page can fire. -/
inductive Trans
  | themeHover (themeIndex : Nat)
  | eventHover (eventIndex : Nat)
  | linkEnter (linkIndex : Nat)
  | linkLeave (linkIndex : Nat)
  | reset

/-- One transition step. -/
def applyTrans (width : ℚ) : Trans → Style → Style
  | .themeHover i => highlightThemeFlows i width
  | .eventHover i => highlightEventFlows i width
  | .linkEnter i => tooltipEnter i
  | .linkLeave i => tooltipLeave i
  | .reset => resetHighlighting

/-- A whole sequence of transitions, applied in order. -/
def applyAll (width : ℚ) (ts : List Trans) (s : Style) : Style :=
  ts.foldl (fun st t => applyTrans width t st) s

end T4

/-! ## part_000 : highlight state machine -/

namespace P0

/-- The visual state the hover handlers of part_000 mutate, including
the per-link flow-value labels. -/
structure Style where
  linkOp : SLink → ℚ
  linkSW : SLink → ℚ
  nodeOp : SNode → ℚ
  labelOp : SNode → ℚ
  flowLabelOp : SLink → ℚ

/-- The state at element creation (part_000 lines 191-257): links get
opacity 0.7 and stroke-width `max(2, width)`; nodes, labels and flow
labels carry no opacity attribute, whose SVG default is 1. -/
def initialStyle : Style :=
  { linkOp := fun _ => 0.7,
    linkSW := fun l => max 2 l.width,
    nodeOp := fun _ => 1,
    labelOp := fun _ => 1,
    flowLabelOp := fun _ => 1 }

/-- part_000 lines 294-309 (`highlightThemeFlows`): as in test2.vue,
with the same vacuous `label.x` filter, plus flow labels of the other
themes fading to 0.1 (the positional lookup `result.links[i]` resolves
to the flow label's own bound link datum). -/
def highlightThemeFlows (themeIndex : Nat) (width : ℚ) (s : Style) : Style :=
  let s1 : Style := { s with linkOp := fun _ => 0.1 }
  let s2 : Style := { s1 with
    linkOp := setWhere (fun l => l.src == themeIndex) (fun _ => 0.9) s1.linkOp,
    linkSW := setWhere (fun l => l.src == themeIndex) (fun l => max 3 (l.width + 1)) s1.linkSW }
  let s3 : Style := { s2 with
    nodeOp := setWhere (fun n => decide (n.x0 < width / 2) && n.index != themeIndex)
      (fun _ => 0.3) s2.nodeOp }
  let s4 : Style := { s3 with
    nodeOp := setWhere (fun n => decide (width / 2 ≤ n.x0)) (fun _ => 0.7) s3.nodeOp }
  let s5 : Style := { s4 with
    labelOp := setWhere (fun n => jsLtU n.x (width / 2) && n.index != themeIndex)
      (fun _ => 0.3) s4.labelOp }
  { s5 with
    flowLabelOp := setWhere (fun l => l.src != themeIndex) (fun _ => 0.1) s5.flowLabelOp }

/-- part_000 lines 311-326 (`highlightDecadeFlows`): the symmetric rule
keyed on `target.index`. -/
def highlightDecadeFlows (decadeIndex : Nat) (width : ℚ) (s : Style) : Style :=
  let s1 : Style := { s with linkOp := fun _ => 0.1 }
  let s2 : Style := { s1 with
    linkOp := setWhere (fun l => l.tgt == decadeIndex) (fun _ => 0.9) s1.linkOp,
    linkSW := setWhere (fun l => l.tgt == decadeIndex) (fun l => max 3 (l.width + 1)) s1.linkSW }
  let s3 : Style := { s2 with
    nodeOp := setWhere (fun n => decide (width / 2 ≤ n.x0) && n.index != decadeIndex)
      (fun _ => 0.3) s2.nodeOp }
  let s4 : Style := { s3 with
    nodeOp := setWhere (fun n => decide (n.x0 < width / 2)) (fun _ => 0.7) s3.nodeOp }
  let s5 : Style := { s4 with
    labelOp := setWhere (fun n => jsGeU n.x (width / 2) && n.index != decadeIndex)
      (fun _ => 0.3) s4.labelOp }
  { s5 with
    flowLabelOp := setWhere (fun l => l.tgt != decadeIndex) (fun _ => 0.1) s5.flowLabelOp }

/-- part_000 lines 328-334 (`resetHighlighting`): unconditionally set
every link to opacity 0.7 and stroke-width `max(2, width)`, and every
node, label and flow label to opacity 1. -/
def resetHighlighting (_s : Style) : Style :=
  { linkOp := fun _ => 0.7,
    linkSW := fun l => max 2 l.width,
    nodeOp := fun _ => 1,
    labelOp := fun _ => 1,
    flowLabelOp := fun _ => 1 }

/-- The hover transitions the part_000 page can fire (it has no link
tooltip handlers). -/
inductive Trans
  | themeHover (themeIndex : Nat)
  | decadeHover (decadeIndex : Nat)
  | reset

/-- One transition step. -/
def applyTrans (width : ℚ) : Trans → Style → Style
  | .themeHover i => highlightThemeFlows i width
  | .decadeHover i => highlightDecadeFlows i width
  | .reset => resetHighlighting

/-- A whole sequence of transitions, applied in order. -/
def applyAll (width : ℚ) (ts : List Trans) (s : Style) : Style :=
  ts.foldl (fun st t => applyTrans width t st) s

end P0

/-! ## Helper lemmas about the JS primitive models -/

theorem mem_dedupFirstAux {x : String} :
    ∀ (l seen : List String), x ∈ dedupFirstAux seen l ↔ x ∈ l ∧ x ∉ seen := by
  intro l
  induction l with
  | nil => intro seen; simp [dedupFirstAux]
  | cons y ys ih =>
    intro seen
    by_cases hy : y ∈ seen
    · rw [dedupFirstAux, if_pos hy, ih]
      constructor
      · rintro ⟨h1, h2⟩; exact ⟨List.mem_cons_of_mem _ h1, h2⟩
      · rintro ⟨h1, h2⟩
        rcases List.mem_cons.mp h1 with rfl | h1
        · exact absurd hy h2
        · exact ⟨h1, h2⟩
    · rw [dedupFirstAux, if_neg hy]
      by_cases hxy : x = y
      · subst hxy; simp [hy]
      · constructor
        · intro h
          rcases List.mem_cons.mp h with rfl | h
          · exact absurd rfl hxy
          · rcases (ih _).mp h with ⟨h1, h2⟩
            refine ⟨List.mem_cons_of_mem _ h1, fun hc => h2 (List.mem_cons_of_mem _ hc)⟩
        · rintro ⟨h1, h2⟩
          rcases List.mem_cons.mp h1 with rfl | h1
          · exact absurd rfl hxy
          · exact List.mem_cons_of_mem _ ((ih _).mpr
              ⟨h1, fun hc => absurd (List.mem_cons.mp hc) (by simp [hxy, h2])⟩)

theorem mem_dedupFirst {x : String} {l : List String} : x ∈ dedupFirst l ↔ x ∈ l := by
  rw [dedupFirst, mem_dedupFirstAux]; simp

theorem dedupFirst_ne_nil {l : List String} (h : l ≠ []) : dedupFirst l ≠ [] := by
  match l, h with
  | x :: xs, _ =>
    intro hc
    have : x ∈ dedupFirst (x :: xs) := mem_dedupFirst.mpr (List.mem_cons_self x xs)
    rw [hc] at this
    exact absurd this (List.not_mem_nil x)

theorem jsIndexOf_cases (xs : List String) (x : String) :
    jsIndexOf xs x = -1 ∨ (0 ≤ jsIndexOf xs x ∧ jsIndexOf xs x < xs.length) := by
  induction xs with
  | nil => left; rfl
  | cons y ys ih =>
    rw [jsIndexOf]
    by_cases hy : y = x
    · right; rw [if_pos hy]; constructor
      · rfl
      · simp
    · rw [if_neg hy]
      rcases ih with h | ⟨h0, hlen⟩
      · left; simp [h]
      · right
        have hne : jsIndexOf ys x ≠ -1 := by omega
        simp only [if_neg hne]
        constructor
        · omega
        · simp only [List.length_cons]; push_cast; omega

theorem jsIndexOf_of_mem {xs : List String} {x : String} (h : x ∈ xs) :
    0 ≤ jsIndexOf xs x ∧ jsIndexOf xs x < xs.length := by
  induction xs with
  | nil => exact absurd h (List.not_mem_nil x)
  | cons y ys ih =>
    rw [jsIndexOf]
    by_cases hy : y = x
    · rw [if_pos hy]; constructor
      · rfl
      · simp
    · rw [if_neg hy]
      have hmem : x ∈ ys := by
        rcases List.mem_cons.mp h with rfl | hm
        · exact absurd rfl hy
        · exact hm
      rcases ih hmem with ⟨h0, hlen⟩
      have hne : jsIndexOf ys x ≠ -1 := by omega
      simp only [if_neg hne]
      constructor
      · omega
      · simp only [List.length_cons]; push_cast; omega

theorem jsIndexOf_of_not_mem {xs : List String} {x : String} (h : x ∉ xs) :
    jsIndexOf xs x = -1 := by
  induction xs with
  | nil => rfl
  | cons y ys ih =>
    rw [jsIndexOf]
    have hy : y ≠ x := fun hc => h (hc ▸ List.mem_cons_self y ys)
    rw [if_neg hy, ih (fun hc => h (List.mem_cons_of_mem _ hc))]
    rfl

theorem jsIndexOf_ne_neg_one_iff {xs : List String} {x : String} :
    jsIndexOf xs x ≠ -1 ↔ x ∈ xs := by
  constructor
  · intro h
    by_contra hc
    exact h (jsIndexOf_of_not_mem hc)
  · intro h
    have := jsIndexOf_of_mem h
    omega

theorem jsInsert_perm {α : Type} (le : α → α → Bool) (x : α) :
    ∀ l : List α, (jsInsert le x l).Perm (x :: l) := by
  intro l
  induction l with
  | nil => rfl
  | cons y ys ih =>
    rw [jsInsert]
    by_cases h : le x y
    · rw [if_pos h]
    · rw [if_neg h]
      exact (ih.cons y).trans (List.Perm.swap x y ys)

theorem jsSort_perm {α : Type} (le : α → α → Bool) :
    ∀ l : List α, (jsSort le l).Perm l := by
  intro l
  induction l with
  | nil => rfl
  | cons x xs ih => exact (jsInsert_perm le x _).trans (ih.cons x)

theorem jsSortRows_perm (rows : List Row) : (jsSortRows rows).Perm rows :=
  jsSort_perm rowLE rows

theorem jsSortRows_length (rows : List Row) : (jsSortRows rows).length = rows.length :=
  (jsSortRows_perm rows).length_eq

theorem splitCharsOn_ne_nil (c : Char) : ∀ cs : List Char, splitCharsOn c cs ≠ [] := by
  intro cs
  induction cs with
  | nil => simp [splitCharsOn]
  | cons x xs ih =>
    rw [splitCharsOn]
    match hm : splitCharsOn c xs with
    | [] => simp
    | y :: ys =>
      by_cases h : x = c
      · simp [h]
      · simp [h]

theorem jsSplitSemi_ne_nil (s : String) : jsSplitSemi s ≠ [] := by
  rw [jsSplitSemi]
  intro hc
  exact splitCharsOn_ne_nil ';' s.data (List.map_eq_nil_iff.mp hc)

theorem rowThemes_ne_nil (row : Row) : T4.rowThemes row ≠ [] := by
  rw [T4.rowThemes]
  intro hc
  exact jsSplitSemi_ne_nil row.theme (List.map_eq_nil_iff.mp hc)

/-! ## Helper lemmas about enumerated maps (node identifier assignment) -/

theorem enum_map_comp_fst {α β : Type} (l : List α) (g : Nat → β) :
    l.enum.map (fun p => g p.1) = (List.range l.length).map g := by
  have h1 : l.enum.map (fun p => g p.1) = (l.enum.map Prod.fst).map g := by
    rw [List.map_map]; rfl
  rw [h1, List.enum_map_fst]

theorem enum_map_comp_snd {α β : Type} (l : List α) (g : α → β) :
    l.enum.map (fun p => g p.2) = l.map g := by
  have h1 : l.enum.map (fun p => g p.2) = (l.enum.map Prod.snd).map g := by
    rw [List.map_map]; rfl
  rw [h1, List.enum_map_snd]

theorem map_enum_mk {α β : Type} (k : Nat) (l : List α) (f : Nat × α → β) (g : β → Nat)
    (h : ∀ p, g (f p) = k + p.1) :
    (l.enum.map f).map g = (List.range l.length).map (fun i => k + i) := by
  rw [List.map_map]
  have hcomp : (g ∘ f) = fun p => k + p.1 := funext h
  rw [hcomp]
  exact enum_map_comp_fst l (fun i => k + i)

theorem mem_enumFrom_bounds {α : Type} :
    ∀ (l : List α) (n : Nat) (p : Nat × α),
      p ∈ l.enumFrom n → n ≤ p.1 ∧ p.1 < n + l.length ∧ p.2 ∈ l := by
  intro l
  induction l with
  | nil => intro n p h; simp [List.enumFrom] at h
  | cons x xs ih =>
    intro n p h
    rw [List.enumFrom] at h
    rcases List.mem_cons.mp h with rfl | h
    · exact ⟨le_refl n, by simp, List.mem_cons_self x xs⟩
    · rcases ih (n + 1) p h with ⟨h1, h2, h3⟩
      refine ⟨by omega, ?_, List.mem_cons_of_mem _ h3⟩
      simp only [List.length_cons]
      omega

/-! ## Helper lemmas about the test2.vue transformer -/

namespace T2

theorem nodes_map_id_t2 (rows : List Row) (themes years : List String) :
    (transformCSVToSankey rows themes years).nodes.map (fun n => n.id)
      = List.range (themes.length + years.length) := by
  simp only [transformCSVToSankey, List.map_append]
  rw [map_enum_mk 0 themes
      (fun p => ({ id := p.1, name := p.2, ntype := "theme", x_position := 0 } : DNode))
      (fun n => n.id) (fun p => (Nat.zero_add p.1).symm),
    map_enum_mk themes.length years
      (fun p =>
        ({ id := themes.length + p.1, name := p.2, ntype := "year", x_position := 1 } : DNode))
      (fun n => n.id) (fun _ => rfl),
    List.range_add]
  simp

theorem exists_node_id_t2 (rows : List Row) (themes years : List String) (j : Nat)
    (h : j < themes.length + years.length) :
    ∃ n ∈ (transformCSVToSankey rows themes years).nodes, n.id = j := by
  have hm : j ∈ (transformCSVToSankey rows themes years).nodes.map (fun n => n.id) := by
    rw [nodes_map_id_t2]
    exact List.mem_range.mpr h
  rcases List.mem_map.mp hm with ⟨n, hn, hj⟩
  exact ⟨n, hn, hj⟩

theorem links_eq_t2 (rows : List Row) (themes years : List String) :
    (transformCSVToSankey rows themes years).links = rows.map (fun row =>
      { source := jsIndexOf themes row.theme,
        target := (themes.length : Int) + jsIndexOf years row.year,
        value := 1,
        description := row.title,
        fullDescription := row.descr,
        year := row.year,
        theme := row.theme }) := rfl

end T2

/-! ## Helper lemmas about the test4.vue transformer -/

namespace T4

theorem nodes_map_id_t4 (rows : List Row) (themes : List String) :
    (transformCSVToSankey rows themes).nodes.map (fun n => n.id)
      = List.range (themes.length + rows.length) := by
  simp only [transformCSVToSankey, List.map_append]
  rw [map_enum_mk 0 themes
      (fun p => ({ id := p.1, name := p.2, ntype := "theme", x_position := 0 } : DNode))
      (fun n => n.id) (fun p => (Nat.zero_add p.1).symm),
    map_enum_mk themes.length (jsSortRows rows)
      (fun p =>
        ({ id := themes.length + p.1,
           name := p.2.year ++ " - " ++ p.2.title,
           ntype := "event", x_position := 1, year := jsParseInt p.2.year,
           title := some p.2.title, descr := some p.2.descr } : DNode))
      (fun n => n.id) (fun _ => rfl),
    List.range_add, jsSortRows_length]
  simp

theorem exists_node_id_t4 (rows : List Row) (themes : List String) (j : Nat)
    (h : j < themes.length + rows.length) :
    ∃ n ∈ (transformCSVToSankey rows themes).nodes, n.id = j := by
  have hm : j ∈ (transformCSVToSankey rows themes).nodes.map (fun n => n.id) := by
    rw [nodes_map_id_t4]
    exact List.mem_range.mpr h
  rcases List.mem_map.mp hm with ⟨n, hn, hj⟩
  exact ⟨n, hn, hj⟩

theorem links_eq_t4 (rows : List Row) (themes : List String) :
    (transformCSVToSankey rows themes).links
      = (jsSortRows rows).enum.flatMap
          (fun p => linksForRow themes (themes.length + p.1) p.2) := rfl

theorem filterMap_linkOfTheme_map_theme (themes : List String) (e : Nat) (row : Row) :
    ∀ ts : List String,
      (ts.filterMap (linkOfTheme themes e row)).map (fun l => l.theme)
        = ts.filter (fun t => !(jsIndexOf themes t == -1)) := by
  intro ts
  induction ts with
  | nil => rfl
  | cons t ts ih =>
    rw [List.filterMap_cons, List.filter_cons]
    by_cases h : jsIndexOf themes t = -1
    · simp [linkOfTheme, h, ih]
    · simp [linkOfTheme, h, ih]

theorem linksForRow_map_theme (themes : List String) (e : Nat) (row : Row) :
    (linksForRow themes e row).map (fun l => l.theme)
      = (rowThemes row).filter (fun t => !(jsIndexOf themes t == -1)) :=
  filterMap_linkOfTheme_map_theme themes e row (rowThemes row)

theorem linksForRow_length (themes : List String) (e : Nat) (row : Row) :
    (linksForRow themes e row).length
      = ((rowThemes row).filter (fun t => !(jsIndexOf themes t == -1))).length := by
  rw [← linksForRow_map_theme themes e row, List.length_map]

theorem mem_linksForRow {themes : List String} {e : Nat} {row : Row} {l : DLink}
    (h : l ∈ linksForRow themes e row) :
    l.target = (e : Int) ∧ 0 ≤ l.source ∧ l.source < themes.length
      ∧ l.theme ∈ rowThemes row ∧ l.theme ∈ themes := by
  rcases List.mem_filterMap.mp h with ⟨t, ht, hsome⟩
  rw [linkOfTheme] at hsome
  by_cases hc : jsIndexOf themes t ≠ -1
  · rw [if_pos hc] at hsome
    obtain rfl := Option.some.inj hsome
    rcases jsIndexOf_cases themes t with h1 | ⟨h1, h2⟩
    · exact absurd h1 hc
    · exact ⟨rfl, h1, h2, ht, jsIndexOf_ne_neg_one_iff.mp hc⟩
  · rw [if_neg hc] at hsome
    cases hsome

theorem linksForRow_ne_nil {themes : List String} {row : Row} (e : Nat) {t : String}
    (ht : t ∈ rowThemes row) (hfound : t ∈ themes) :
    linksForRow themes e row ≠ [] := by
  intro hc
  have hne : jsIndexOf themes t ≠ -1 := jsIndexOf_ne_neg_one_iff.mpr hfound
  have h1 : t ∈ (rowThemes row).filter (fun u => !(jsIndexOf themes u == -1)) := by
    apply List.mem_filter.mpr
    refine ⟨ht, ?_⟩
    simp [hne]
  rw [← linksForRow_map_theme themes e row, hc] at h1
  exact absurd h1 (List.not_mem_nil t)

theorem flatMap_links_target {themes : List String} (k : Nat) :
    ∀ (rows : List Row) (n : Nat) (l : DLink),
      l ∈ (rows.enumFrom n).flatMap (fun p => linksForRow themes (k + p.1) p.2) →
      ∃ j, n ≤ j ∧ j < n + rows.length ∧ l.target = ((k + j : Nat) : Int) := by
  intro rows n l h
  rcases List.mem_flatMap.mp h with ⟨p, hp, hl⟩
  rcases mem_enumFrom_bounds rows n p hp with ⟨h1, h2, _⟩
  rcases mem_linksForRow hl with ⟨ht, _⟩
  exact ⟨p.1, h1, h2, ht⟩

theorem filter_flatMap_enumFrom (themes : List String) (k : Nat) :
    ∀ (rows : List Row) (n i : Nat) (h : i < rows.length),
      ((rows.enumFrom n).flatMap (fun p => linksForRow themes (k + p.1) p.2)).filter
          (fun l => l.target == ((k + (n + i) : Nat) : Int))
        = linksForRow themes (k + (n + i)) (rows.get ⟨i, h⟩) := by
  intro rows
  induction rows with
  | nil => intro n i h; exact absurd h (by simp)
  | cons r rs ih =>
    intro n i h
    rw [show (r :: rs).enumFrom n = (n, r) :: rs.enumFrom (n + 1) from rfl,
      List.flatMap_cons, List.filter_append]
    cases i with
    | zero =>
      have hhead : (linksForRow themes (k + n) r).filter
          (fun l => l.target == ((k + (n + 0) : Nat) : Int)) = linksForRow themes (k + n) r := by
        apply List.filter_eq_self.mpr
        intro l hl
        rcases mem_linksForRow hl with ⟨ht, _⟩
        simp [ht]
      have htail : ((rs.enumFrom (n + 1)).flatMap
            (fun p => linksForRow themes (k + p.1) p.2)).filter
          (fun l => l.target == ((k + (n + 0) : Nat) : Int)) = [] := by
        rw [List.filter_eq_nil_iff]
        intro l hl
        rcases flatMap_links_target k rs (n + 1) l hl with ⟨j, hj1, hj2, hjt⟩
        simp only [hjt, beq_iff_eq, Nat.cast_inj]
        omega
      rw [hhead, htail, List.append_nil]
      norm_num
    | succ i' =>
      have hi' : i' < rs.length := by
        simp only [List.length_cons] at h
        omega
      have hhead : (linksForRow themes (k + n) r).filter
          (fun l => l.target == ((k + (n + (i' + 1)) : Nat) : Int)) = [] := by
        rw [List.filter_eq_nil_iff]
        intro l hl
        rcases mem_linksForRow hl with ⟨ht, _⟩
        simp only [ht, beq_iff_eq, Nat.cast_inj]
        omega
      have hsucc : k + (n + (i' + 1)) = k + ((n + 1) + i') := by omega
      rw [hhead, List.nil_append, hsucc, ih (n + 1) i' hi']
      rfl

end T4

/-! ## More helper lemmas for the transformer claims -/

theorem T4_rowThemes_subset_loaderThemes {rows : List Row} {r : Row} (hr : r ∈ rows) :
    ∀ t ∈ T4.rowThemes r, t ∈ T4.loaderThemes rows := by
  intro t ht
  apply mem_dedupFirst.mpr
  apply List.mem_flatMap.mpr
  exact ⟨r.theme, List.mem_map_of_mem _ hr, ht⟩

theorem jsSortRows_ne_nil {rows : List Row} (hne : rows ≠ []) : jsSortRows rows ≠ [] := by
  intro hc
  have hp := jsSortRows_perm rows
  rw [hc] at hp
  exact hne hp.symm.eq_nil

theorem T4_loaderThemes_ne_nil {rows : List Row} (hne : rows ≠ []) :
    T4.loaderThemes rows ≠ [] := by
  obtain ⟨r, rest, rfl⟩ := List.exists_cons_of_ne_nil hne
  obtain ⟨t, ht⟩ := List.exists_mem_of_ne_nil _ (rowThemes_ne_nil r)
  exact List.ne_nil_of_mem
    (T4_rowThemes_subset_loaderThemes (List.mem_cons_self r rest) t ht)

/-! ## Claim theorems -/

/-- C10: the hardcoded fallback dataset satisfies the Link invariant of
the data model: it has 9 nodes and 14 links, and every link carries a
source id in {0,...,3} referencing an existing theme node, a target id
in {4,...,8} referencing an existing decade node, and a strictly
positive value — so every link is directed from a primary-category node
to a secondary-category node. -/
theorem C10_fallback_link_invariant :
    P0.fallbackData.nodes.length = 9 ∧ P0.fallbackData.links.length = 14 ∧
    ∀ l ∈ P0.fallbackData.links,
      l.source ∈ [some (0 : Int), some 1, some 2, some 3]
      ∧ l.target ∈ [some (4 : Int), some 5, some 6, some 7, some 8]
      ∧ l.value.isSome = true ∧ 0 < l.value.getD 0
      ∧ (∃ n ∈ P0.fallbackData.nodes, n.id = l.source ∧ n.ntype = "theme")
      ∧ (∃ n ∈ P0.fallbackData.nodes, n.id = l.target ∧ n.ntype = "decade") := by
  decide

/-- C8: the transformers are deterministic pure functions of their
input: running either transformer twice on the same rows (and the same
category sets) produces structurally identical datasets — the same node
ids and names in the same order, and the same links in the same order.
Both runs are the same Lean function application, so this reduces to
reflexivity; the real content, that the source functions read nothing
but their arguments, is reflected by their embeddings being functions. -/
theorem C8_transform_deterministic (rows : List Row) (themes years : List String) :
    let d1 := T2.transformCSVToSankey rows themes years
    let d2 := T2.transformCSVToSankey rows themes years
    let e1 := T4.transformCSVToSankey rows themes
    let e2 := T4.transformCSVToSankey rows themes
    d1.nodes.map (fun n => n.id) = d2.nodes.map (fun n => n.id)
    ∧ d1.nodes.map (fun n => n.name) = d2.nodes.map (fun n => n.name)
    ∧ d1.links = d2.links ∧ d1 = d2
    ∧ e1.nodes.map (fun n => n.id) = e2.nodes.map (fun n => n.id)
    ∧ e1.nodes.map (fun n => n.name) = e2.nodes.map (fun n => n.name)
    ∧ e1.links = e2.links ∧ e1 = e2 :=
  ⟨rfl, rfl, rfl, rfl, rfl, rfl, rfl, rfl⟩

/-- C7: every failure of the fetch path of the part_000 load operation —
a rejected fetch, an empty result, or a result without node rows or
without link rows — is caught at the top level: a user-visible error
message is recorded, loading ends, and the fixed hardcoded fallback
dataset (9 nodes, 14 links) is substituted as the current data and
rendered. -/
theorem C7_load_failure_fallback (f : P0.FetchResult) (h : P0.LoadFailed f) :
    (P0.loadData f).loading = false
    ∧ (P0.loadData f).error.isSome = true
    ∧ (P0.loadData f).currentData = some P0.fallbackData
    ∧ (P0.loadData f).rendered = some P0.fallbackData
    ∧ P0.fallbackData.nodes.length = 9
    ∧ P0.fallbackData.links.length = 14 := by
  cases f with
  | fetchError msg => exact ⟨rfl, rfl, rfl, rfl, rfl, rfl⟩
  | fetched rows =>
    simp only [P0.LoadFailed] at h
    simp only [P0.loadData]
    by_cases h0 : rows.length > 0
    · rw [if_pos h0]
      have hcond : ¬ ((P0.parseCSVData rows).1.length > 0 ∧ (P0.parseCSVData rows).2.length > 0) := by
        rcases h with h | h | h
        · omega
        · rintro ⟨h1, h2⟩; omega
        · rintro ⟨h1, h2⟩; omega
      rw [if_neg hcond]
      exact ⟨rfl, rfl, rfl, rfl, rfl, rfl⟩
    · rw [if_neg h0]
      exact ⟨rfl, rfl, rfl, rfl, rfl, rfl⟩

/-- Witness for C7 at a concrete failing fetch. -/
theorem C7_load_failure_fallback_witness :
    P0.LoadFailed (P0.FetchResult.fetchError "HTTP 404")
    ∧ ((P0.loadData (P0.FetchResult.fetchError "HTTP 404")).loading = false
      ∧ (P0.loadData (P0.FetchResult.fetchError "HTTP 404")).error.isSome = true
      ∧ (P0.loadData (P0.FetchResult.fetchError "HTTP 404")).currentData = some P0.fallbackData
      ∧ (P0.loadData (P0.FetchResult.fetchError "HTTP 404")).rendered = some P0.fallbackData
      ∧ P0.fallbackData.nodes.length = 9
      ∧ P0.fallbackData.links.length = 14) :=
  ⟨trivial, C7_load_failure_fallback (P0.FetchResult.fetchError "HTTP 404") trivial⟩

/-- C2: both transformers, fed the category values their loaders
compute, assign the primary (theme) nodes the consecutive identifiers
0..k-1 — k the number of distinct primary values, in first-seen order —
and the secondary nodes the identifiers k..k+m-1 — in first-seen order
for the year nodes of test2.vue, and in sorted row order for the event
nodes of test4.vue. -/
theorem C2_node_identifier_assignment (rows : List Row) :
    ((T2.transformCSVToSankey rows (T2.loaderThemes rows) (T2.loaderYears rows)).nodes.map
        (fun n => n.id)
      = List.range ((T2.loaderThemes rows).length + (T2.loaderYears rows).length))
    ∧ (((T2.transformCSVToSankey rows (T2.loaderThemes rows) (T2.loaderYears rows)).nodes.take
          (T2.loaderThemes rows).length).map (fun n => n.name) = T2.loaderThemes rows)
    ∧ (((T2.transformCSVToSankey rows (T2.loaderThemes rows) (T2.loaderYears rows)).nodes.drop
          (T2.loaderThemes rows).length).map (fun n => n.name) = T2.loaderYears rows)
    ∧ (∀ n ∈ (T2.transformCSVToSankey rows (T2.loaderThemes rows) (T2.loaderYears rows)).nodes.take
          (T2.loaderThemes rows).length, n.ntype = "theme")
    ∧ (∀ n ∈ (T2.transformCSVToSankey rows (T2.loaderThemes rows) (T2.loaderYears rows)).nodes.drop
          (T2.loaderThemes rows).length, n.ntype = "year")
    ∧ ((T4.transformCSVToSankey rows (T4.loaderThemes rows)).nodes.map (fun n => n.id)
      = List.range ((T4.loaderThemes rows).length + rows.length))
    ∧ (((T4.transformCSVToSankey rows (T4.loaderThemes rows)).nodes.take
          (T4.loaderThemes rows).length).map (fun n => n.name) = T4.loaderThemes rows)
    ∧ (((T4.transformCSVToSankey rows (T4.loaderThemes rows)).nodes.drop
          (T4.loaderThemes rows).length).map (fun n => n.name)
      = (jsSortRows rows).map (fun r => r.year ++ " - " ++ r.title))
    ∧ (∀ n ∈ (T4.transformCSVToSankey rows (T4.loaderThemes rows)).nodes.take
          (T4.loaderThemes rows).length, n.ntype = "theme")
    ∧ (∀ n ∈ (T4.transformCSVToSankey rows (T4.loaderThemes rows)).nodes.drop
          (T4.loaderThemes rows).length, n.ntype = "event") := by
  refine ⟨T2.nodes_map_id_t2 rows _ _, ?_, ?_, ?_, ?_,
    T4.nodes_map_id_t4 rows _, ?_, ?_, ?_, ?_⟩
  all_goals
    simp only [T2.transformCSVToSankey, T4.transformCSVToSankey]
  · rw [List.take_left' (by simp), List.map_map]
    exact List.enum_map_snd _
  · rw [List.drop_left' (by simp), List.map_map]
    exact List.enum_map_snd _
  · rw [List.take_left' (by simp)]
    intro n hn
    rcases List.mem_map.mp hn with ⟨p, _, rfl⟩
    rfl
  · rw [List.drop_left' (by simp)]
    intro n hn
    rcases List.mem_map.mp hn with ⟨p, _, rfl⟩
    rfl
  · rw [List.take_left' (by simp), List.map_map]
    exact List.enum_map_snd _
  · rw [List.drop_left' (by simp), List.map_map]
    exact enum_map_comp_snd (jsSortRows rows) (fun r => r.year ++ " - " ++ r.title)
  · rw [List.take_left' (by simp)]
    intro n hn
    rcases List.mem_map.mp hn with ⟨p, _, rfl⟩
    rfl
  · rw [List.drop_left' (by simp)]
    intro n hn
    rcases List.mem_map.mp hn with ⟨p, _, rfl⟩
    rfl

/-- C1: for every CSV input with at least one row, each transformer, fed
the category value sets its loader computes from those rows, returns a
dataset with at least 2 nodes and at least 1 link in which every link's
source and target identifier equals the id of some node of the dataset. -/
theorem C1_transform_wellformed (rows : List Row) (hne : rows ≠ []) :
    (2 ≤ (T2.transformCSVToSankey rows (T2.loaderThemes rows) (T2.loaderYears rows)).nodes.length
      ∧ 1 ≤ (T2.transformCSVToSankey rows (T2.loaderThemes rows) (T2.loaderYears rows)).links.length
      ∧ ∀ l ∈ (T2.transformCSVToSankey rows (T2.loaderThemes rows) (T2.loaderYears rows)).links,
          (∃ n ∈ (T2.transformCSVToSankey rows (T2.loaderThemes rows)
              (T2.loaderYears rows)).nodes, (n.id : Int) = l.source)
          ∧ (∃ n ∈ (T2.transformCSVToSankey rows (T2.loaderThemes rows)
              (T2.loaderYears rows)).nodes, (n.id : Int) = l.target))
    ∧ (2 ≤ (T4.transformCSVToSankey rows (T4.loaderThemes rows)).nodes.length
      ∧ 1 ≤ (T4.transformCSVToSankey rows (T4.loaderThemes rows)).links.length
      ∧ ∀ l ∈ (T4.transformCSVToSankey rows (T4.loaderThemes rows)).links,
          (∃ n ∈ (T4.transformCSVToSankey rows (T4.loaderThemes rows)).nodes,
            (n.id : Int) = l.source)
          ∧ (∃ n ∈ (T4.transformCSVToSankey rows (T4.loaderThemes rows)).nodes,
            (n.id : Int) = l.target)) := by
  have hthemes2 : 0 < (T2.loaderThemes rows).length :=
    List.length_pos.mpr (dedupFirst_ne_nil (by
      intro hc
      exact hne (List.map_eq_nil_iff.mp hc)))
  have hyears2 : 0 < (T2.loaderYears rows).length :=
    List.length_pos.mpr (dedupFirst_ne_nil (by
      intro hc
      exact hne (List.map_eq_nil_iff.mp hc)))
  have hthemes4 : 0 < (T4.loaderThemes rows).length :=
    List.length_pos.mpr (T4_loaderThemes_ne_nil hne)
  have hrows : 0 < rows.length := List.length_pos.mpr hne
  constructor
  · refine ⟨?_, ?_, ?_⟩
    · have hlen : (T2.transformCSVToSankey rows (T2.loaderThemes rows)
          (T2.loaderYears rows)).nodes.length
          = (T2.loaderThemes rows).length + (T2.loaderYears rows).length := by
        have := congrArg List.length (T2.nodes_map_id_t2 rows (T2.loaderThemes rows)
          (T2.loaderYears rows))
        simpa using this
      omega
    · have hlen : (T2.transformCSVToSankey rows (T2.loaderThemes rows)
          (T2.loaderYears rows)).links.length = rows.length := by
        rw [T2.links_eq_t2, List.length_map]
      omega
    · intro l hl
      rw [T2.links_eq_t2] at hl
      rcases List.mem_map.mp hl with ⟨row, hrow, rfl⟩
      have hmemT : row.theme ∈ T2.loaderThemes rows :=
        mem_dedupFirst.mpr (List.mem_map_of_mem _ hrow)
      have hmemY : row.year ∈ T2.loaderYears rows :=
        mem_dedupFirst.mpr (List.mem_map_of_mem _ hrow)
      rcases jsIndexOf_of_mem hmemT with ⟨hT0, hTlen⟩
      rcases jsIndexOf_of_mem hmemY with ⟨hY0, hYlen⟩
      constructor
      · obtain ⟨n, hn, hid⟩ := T2.exists_node_id_t2 rows (T2.loaderThemes rows)
          (T2.loaderYears rows) (jsIndexOf (T2.loaderThemes rows) row.theme).toNat (by omega)
        refine ⟨n, hn, ?_⟩
        rw [hid]
        show ((jsIndexOf (T2.loaderThemes rows) row.theme).toNat : Int)
          = jsIndexOf (T2.loaderThemes rows) row.theme
        omega
      · obtain ⟨n, hn, hid⟩ := T2.exists_node_id_t2 rows (T2.loaderThemes rows)
          (T2.loaderYears rows)
          ((T2.loaderThemes rows).length + (jsIndexOf (T2.loaderYears rows) row.year).toNat)
          (by omega)
        refine ⟨n, hn, ?_⟩
        rw [hid]
        show (((T2.loaderThemes rows).length
            + (jsIndexOf (T2.loaderYears rows) row.year).toNat : Nat) : Int)
          = ((T2.loaderThemes rows).length : Int) + jsIndexOf (T2.loaderYears rows) row.year
        push_cast
        omega
  · refine ⟨?_, ?_, ?_⟩
    · have hlen : (T4.transformCSVToSankey rows (T4.loaderThemes rows)).nodes.length
          = (T4.loaderThemes rows).length + rows.length := by
        have := congrArg List.length (T4.nodes_map_id_t4 rows (T4.loaderThemes rows))
        simpa using this
      omega
    · obtain ⟨s, srest, hcons⟩ := List.exists_cons_of_ne_nil (jsSortRows_ne_nil hne)
      have hsmem : s ∈ rows := (jsSortRows_perm rows).mem_iff.mp
        (hcons ▸ List.mem_cons_self s srest)
      obtain ⟨t, ht⟩ := List.exists_mem_of_ne_nil _ (rowThemes_ne_nil s)
      have hlinks1 : T4.linksForRow (T4.loaderThemes rows)
          ((T4.loaderThemes rows).length + (0, s).1) (0, s).2 ≠ [] :=
        T4.linksForRow_ne_nil _ ht (T4_rowThemes_subset_loaderThemes hsmem t ht)
      rw [T4.links_eq_t4, hcons]
      rw [show (s :: srest).enum = ((0, s) :: srest.enumFrom 1) from rfl, List.flatMap_cons]
      rw [List.length_append]
      have := List.length_pos.mpr hlinks1
      omega
    · intro l hl
      rw [T4.links_eq_t4] at hl
      rcases List.mem_flatMap.mp hl with ⟨p, hp, hlf⟩
      rcases mem_enumFrom_bounds _ 0 p hp with ⟨_, hplt, _⟩
      rcases T4.mem_linksForRow hlf with ⟨htgt, hs0, hslen, _, _⟩
      have hplen : p.1 < rows.length := by
        rw [jsSortRows_length] at hplt
        omega
      constructor
      · obtain ⟨n, hn, hid⟩ := T4.exists_node_id_t4 rows (T4.loaderThemes rows)
          l.source.toNat (by omega)
        refine ⟨n, hn, ?_⟩
        rw [hid]
        omega
      · obtain ⟨n, hn, hid⟩ := T4.exists_node_id_t4 rows (T4.loaderThemes rows)
          ((T4.loaderThemes rows).length + p.1) (by omega)
        refine ⟨n, hn, ?_⟩
        rw [hid, htgt]

/-- Witness for C1 at a concrete one-row input. -/
theorem C1_transform_wellformed_witness :
    ([(⟨"A", "1900", "t1", "d1"⟩ : Row)] ≠ [])
    ∧ ((2 ≤ (T2.transformCSVToSankey [⟨"A", "1900", "t1", "d1"⟩]
          (T2.loaderThemes [⟨"A", "1900", "t1", "d1"⟩])
          (T2.loaderYears [⟨"A", "1900", "t1", "d1"⟩])).nodes.length
        ∧ 1 ≤ (T2.transformCSVToSankey [⟨"A", "1900", "t1", "d1"⟩]
          (T2.loaderThemes [⟨"A", "1900", "t1", "d1"⟩])
          (T2.loaderYears [⟨"A", "1900", "t1", "d1"⟩])).links.length
        ∧ ∀ l ∈ (T2.transformCSVToSankey [⟨"A", "1900", "t1", "d1"⟩]
            (T2.loaderThemes [⟨"A", "1900", "t1", "d1"⟩])
            (T2.loaderYears [⟨"A", "1900", "t1", "d1"⟩])).links,
            (∃ n ∈ (T2.transformCSVToSankey [⟨"A", "1900", "t1", "d1"⟩]
                (T2.loaderThemes [⟨"A", "1900", "t1", "d1"⟩])
                (T2.loaderYears [⟨"A", "1900", "t1", "d1"⟩])).nodes, (n.id : Int) = l.source)
            ∧ (∃ n ∈ (T2.transformCSVToSankey [⟨"A", "1900", "t1", "d1"⟩]
                (T2.loaderThemes [⟨"A", "1900", "t1", "d1"⟩])
                (T2.loaderYears [⟨"A", "1900", "t1", "d1"⟩])).nodes, (n.id : Int) = l.target))
      ∧ (2 ≤ (T4.transformCSVToSankey [⟨"A", "1900", "t1", "d1"⟩]
          (T4.loaderThemes [⟨"A", "1900", "t1", "d1"⟩])).nodes.length
        ∧ 1 ≤ (T4.transformCSVToSankey [⟨"A", "1900", "t1", "d1"⟩]
          (T4.loaderThemes [⟨"A", "1900", "t1", "d1"⟩])).links.length
        ∧ ∀ l ∈ (T4.transformCSVToSankey [⟨"A", "1900", "t1", "d1"⟩]
            (T4.loaderThemes [⟨"A", "1900", "t1", "d1"⟩])).links,
            (∃ n ∈ (T4.transformCSVToSankey [⟨"A", "1900", "t1", "d1"⟩]
                (T4.loaderThemes [⟨"A", "1900", "t1", "d1"⟩])).nodes, (n.id : Int) = l.source)
            ∧ (∃ n ∈ (T4.transformCSVToSankey [⟨"A", "1900", "t1", "d1"⟩]
                (T4.loaderThemes [⟨"A", "1900", "t1", "d1"⟩])).nodes,
                (n.id : Int) = l.target))) :=
  ⟨by decide, C1_transform_wellformed [⟨"A", "1900", "t1", "d1"⟩] (by decide)⟩

/-- C9: when the theme set passed to the test4.vue transformer is the
one its loader computes — the trimmed values of splitting every row's
theme field on the delimiter — the unresolved-theme branch is
unreachable: no warning is emitted and the number of links equals the
total number of listed theme entries across all rows. -/
theorem C9_loader_themes_cover (rows : List Row) (themes : List String)
    (hth : themes = T4.loaderThemes rows) :
    T4.transformWarnings rows themes = []
    ∧ (T4.transformCSVToSankey rows themes).links.length
        = (rows.map (fun r => (T4.rowThemes r).length)).sum := by
  subst hth
  have hfound : ∀ r ∈ jsSortRows rows, ∀ t ∈ T4.rowThemes r,
      jsIndexOf (T4.loaderThemes rows) t ≠ -1 := by
    intro r hr t ht
    exact jsIndexOf_ne_neg_one_iff.mpr
      (T4_rowThemes_subset_loaderThemes ((jsSortRows_perm rows).mem_iff.mp hr) t ht)
  constructor
  · rw [T4.transformWarnings, List.flatMap_eq_nil_iff]
    intro r hr
    rw [List.filter_eq_nil_iff]
    intro t ht
    simp only [beq_iff_eq]
    exact hfound r hr t ht
  · rw [T4.links_eq_t4, List.length_flatMap]
    have hmap : ((jsSortRows rows).enum.map
          (List.length ∘ fun p =>
            T4.linksForRow (T4.loaderThemes rows) ((T4.loaderThemes rows).length + p.1) p.2))
        = (jsSortRows rows).enum.map (fun p => (T4.rowThemes p.2).length) := by
      apply List.map_congr_left
      intro p hp
      have hp2 : p.2 ∈ jsSortRows rows := (mem_enumFrom_bounds _ 0 p hp).2.2
      show (T4.linksForRow (T4.loaderThemes rows)
        ((T4.loaderThemes rows).length + p.1) p.2).length = (T4.rowThemes p.2).length
      rw [T4.linksForRow_length]
      congr 1
      apply List.filter_eq_self.mpr
      intro t ht
      simp only [Bool.not_eq_eq_eq_not, Bool.not_true, beq_eq_false_iff_ne, ne_eq]
      exact hfound p.2 hp2 t ht
    rw [hmap, enum_map_comp_snd (jsSortRows rows) (fun r => (T4.rowThemes r).length)]
    exact ((jsSortRows_perm rows).map (fun r => (T4.rowThemes r).length)).sum_eq

/-- Witness for C9 at a concrete two-row input with a multi-valued
theme field. -/
theorem C9_loader_themes_cover_witness :
    (T4.loaderThemes [⟨"A;B", "1900", "t1", "d1"⟩, ⟨"B", "1910", "t2", "d2"⟩]
      = T4.loaderThemes [⟨"A;B", "1900", "t1", "d1"⟩, ⟨"B", "1910", "t2", "d2"⟩])
    ∧ (T4.transformWarnings [⟨"A;B", "1900", "t1", "d1"⟩, ⟨"B", "1910", "t2", "d2"⟩]
        (T4.loaderThemes [⟨"A;B", "1900", "t1", "d1"⟩, ⟨"B", "1910", "t2", "d2"⟩]) = []
      ∧ (T4.transformCSVToSankey [⟨"A;B", "1900", "t1", "d1"⟩, ⟨"B", "1910", "t2", "d2"⟩]
          (T4.loaderThemes [⟨"A;B", "1900", "t1", "d1"⟩, ⟨"B", "1910", "t2", "d2"⟩])).links.length
        = ([(⟨"A;B", "1900", "t1", "d1"⟩ : Row), ⟨"B", "1910", "t2", "d2"⟩].map
            (fun r => (T4.rowThemes r).length)).sum) :=
  ⟨rfl, C9_loader_themes_cover
    [⟨"A;B", "1900", "t1", "d1"⟩, ⟨"B", "1910", "t2", "d2"⟩]
    (T4.loaderThemes [⟨"A;B", "1900", "t1", "d1"⟩, ⟨"B", "1910", "t2", "d2"⟩]) rfl⟩

/-- C3: in the multi-theme variant, a row (at sorted position i) whose
theme field lists exactly two distinct known values a and b produces
exactly 2 links — the links targeting that row's event node — and those
two links agree on target, value, description, fullDescription and year
while their theme values are a and b respectively. -/
theorem C3_multi_theme_fanout (rows : List Row) (themes : List String) (i : Nat)
    (a b : String) (hi : i < (jsSortRows rows).length)
    (hrow : T4.rowThemes ((jsSortRows rows).get ⟨i, hi⟩) = [a, b])
    (ha : a ∈ themes) (hb : b ∈ themes) (hab : a ≠ b) :
    ∃ l1 l2 : T4.DLink,
      ((T4.transformCSVToSankey rows themes).links.filter
          (fun l => l.target == ((themes.length + i : Nat) : Int))) = [l1, l2]
      ∧ l1.target = l2.target ∧ l1.value = l2.value
      ∧ l1.description = l2.description ∧ l1.fullDescription = l2.fullDescription
      ∧ l1.year = l2.year ∧ l1.theme = a ∧ l2.theme = b ∧ l1.theme ≠ l2.theme := by
  have hfa : jsIndexOf themes a ≠ -1 := jsIndexOf_ne_neg_one_iff.mpr ha
  have hfb : jsIndexOf themes b ≠ -1 := jsIndexOf_ne_neg_one_iff.mpr hb
  have hfilter := T4.filter_flatMap_enumFrom themes themes.length (jsSortRows rows) 0 i hi
  simp only [Nat.zero_add] at hfilter
  rw [T4.links_eq_t4]
  rw [show (jsSortRows rows).enum = (jsSortRows rows).enumFrom 0 from rfl, hfilter]
  rw [T4.linksForRow, hrow]
  rw [List.filterMap_cons, List.filterMap_cons, List.filterMap_nil]
  rw [show T4.linkOfTheme themes (themes.length + i) ((jsSortRows rows).get ⟨i, hi⟩) a
      = some { source := jsIndexOf themes a,
               target := ((themes.length + i : Nat) : Int), value := 1,
               description := ((jsSortRows rows).get ⟨i, hi⟩).title,
               fullDescription := ((jsSortRows rows).get ⟨i, hi⟩).descr,
               year := jsParseInt ((jsSortRows rows).get ⟨i, hi⟩).year, theme := a }
    from by rw [T4.linkOfTheme, if_pos hfa]]
  rw [show T4.linkOfTheme themes (themes.length + i) ((jsSortRows rows).get ⟨i, hi⟩) b
      = some { source := jsIndexOf themes b,
               target := ((themes.length + i : Nat) : Int), value := 1,
               description := ((jsSortRows rows).get ⟨i, hi⟩).title,
               fullDescription := ((jsSortRows rows).get ⟨i, hi⟩).descr,
               year := jsParseInt ((jsSortRows rows).get ⟨i, hi⟩).year, theme := b }
    from by rw [T4.linkOfTheme, if_pos hfb]]
  exact ⟨_, _, rfl, rfl, rfl, rfl, rfl, rfl, rfl, rfl, hab⟩

/-- Witness for C3 at a concrete one-row input with theme field "A;B". -/
theorem C3_multi_theme_fanout_witness :
    (0 < (jsSortRows [⟨"A;B", "1900", "t1", "d1"⟩]).length)
    ∧ (T4.rowThemes ((jsSortRows [⟨"A;B", "1900", "t1", "d1"⟩]).get ⟨0, by decide⟩)
        = ["A", "B"])
    ∧ ("A" ∈ ["A", "B"]) ∧ ("B" ∈ ["A", "B"]) ∧ ("A" ≠ "B")
    ∧ (∃ l1 l2 : T4.DLink,
        ((T4.transformCSVToSankey [⟨"A;B", "1900", "t1", "d1"⟩] ["A", "B"]).links.filter
            (fun l => l.target == ((["A", "B"].length + 0 : Nat) : Int))) = [l1, l2]
        ∧ l1.target = l2.target ∧ l1.value = l2.value
        ∧ l1.description = l2.description ∧ l1.fullDescription = l2.fullDescription
        ∧ l1.year = l2.year ∧ l1.theme = "A" ∧ l2.theme = "B" ∧ l1.theme ≠ l2.theme) :=
  ⟨by decide, by decide, by decide, by decide, by decide,
    C3_multi_theme_fanout [⟨"A;B", "1900", "t1", "d1"⟩] ["A", "B"] 0 "A" "B"
      (by decide) (by decide) (by decide) (by decide) (by decide)⟩

/-- C4: in the multi-theme variant, a row (at sorted position i) whose
theme field lists a value t absent from the known theme set contributes
no link for t: none of the links targeting that row's event node carries
theme t, a warning naming t is emitted, and the transformation still
completes over all rows — the total link count is the sum, over all
sorted rows, of each row's count of resolvable listed themes. -/
theorem C4_unknown_theme_dropped (rows : List Row) (themes : List String) (i : Nat)
    (t : String) (hi : i < (jsSortRows rows).length)
    (ht : t ∈ T4.rowThemes ((jsSortRows rows).get ⟨i, hi⟩))
    (hmiss : t ∉ themes) :
    (∀ l ∈ (T4.transformCSVToSankey rows themes).links,
        l.target = ((themes.length + i : Nat) : Int) → l.theme ≠ t)
    ∧ t ∈ T4.transformWarnings rows themes
    ∧ (T4.transformCSVToSankey rows themes).links.length
        = ((jsSortRows rows).map
            (fun r => ((T4.rowThemes r).filter
              (fun u => !(jsIndexOf themes u == -1))).length)).sum := by
  refine ⟨?_, ?_, ?_⟩
  · intro l hl _
    rw [T4.links_eq_t4] at hl
    rcases List.mem_flatMap.mp hl with ⟨p, _, hlf⟩
    rcases T4.mem_linksForRow hlf with ⟨_, _, _, _, hthm⟩
    intro hc
    rw [hc] at hthm
    exact hmiss hthm
  · rw [T4.transformWarnings]
    apply List.mem_flatMap.mpr
    refine ⟨(jsSortRows rows).get ⟨i, hi⟩, List.get_mem _ _ _, ?_⟩
    apply List.mem_filter.mpr
    refine ⟨ht, ?_⟩
    rw [jsIndexOf_of_not_mem hmiss]
    rfl
  · rw [T4.links_eq_t4, List.length_flatMap]
    have hmap : ((jsSortRows rows).enum.map
          (List.length ∘ fun p =>
            T4.linksForRow themes (themes.length + p.1) p.2))
        = (jsSortRows rows).enum.map
            (fun p => ((T4.rowThemes p.2).filter
              (fun u => !(jsIndexOf themes u == -1))).length) := by
      apply List.map_congr_left
      intro p _
      exact T4.linksForRow_length themes (themes.length + p.1) p.2
    rw [hmap, enum_map_comp_snd (jsSortRows rows)
      (fun r => ((T4.rowThemes r).filter (fun u => !(jsIndexOf themes u == -1))).length)]

/-- Witness for C4 at a concrete one-row input whose theme field lists
the unknown value "X". -/
theorem C4_unknown_theme_dropped_witness :
    (0 < (jsSortRows [⟨"A;X", "1900", "t1", "d1"⟩]).length)
    ∧ ("X" ∈ T4.rowThemes ((jsSortRows [⟨"A;X", "1900", "t1", "d1"⟩]).get ⟨0, by decide⟩))
    ∧ ("X" ∉ ["A"])
    ∧ ((∀ l ∈ (T4.transformCSVToSankey [⟨"A;X", "1900", "t1", "d1"⟩] ["A"]).links,
          l.target = ((["A"].length + 0 : Nat) : Int) → l.theme ≠ "X")
      ∧ "X" ∈ T4.transformWarnings [⟨"A;X", "1900", "t1", "d1"⟩] ["A"]
      ∧ (T4.transformCSVToSankey [⟨"A;X", "1900", "t1", "d1"⟩] ["A"]).links.length
          = ((jsSortRows [⟨"A;X", "1900", "t1", "d1"⟩]).map
              (fun r => ((T4.rowThemes r).filter
                (fun u => !(jsIndexOf ["A"] u == -1))).length)).sum) :=
  ⟨by decide, by decide, by decide,
    C4_unknown_theme_dropped [⟨"A;X", "1900", "t1", "d1"⟩] ["A"] 0 "X"
      (by decide) (by decide) (by decide)⟩

/-! ## Highlight-reset lemmas (claim C5) -/

theorem T4_applyTrans_linkSW (w : ℚ) (t : T4.Trans) (s : T4.Style) :
    (T4.applyTrans w t s).linkSW = s.linkSW := by
  cases t <;> rfl

theorem T4_applyAll_linkSW (w : ℚ) :
    ∀ (ts : List T4.Trans) (s : T4.Style), (T4.applyAll w ts s).linkSW = s.linkSW := by
  intro ts
  induction ts with
  | nil => intro s; rfl
  | cons t ts ih =>
    intro s
    rw [show T4.applyAll w (t :: ts) s = T4.applyAll w ts (T4.applyTrans w t s) from rfl,
      ih, T4_applyTrans_linkSW]

theorem T4_reset_applyAll (w : ℚ) (ts : List T4.Trans) :
    T4.resetHighlighting (T4.applyAll w ts T4.initialStyle)
      = T4.resetHighlighting T4.initialStyle := by
  simp only [T4.resetHighlighting]
  rw [T4_applyAll_linkSW]

/-- C5 (corrected): after any sequence of hover transitions starting
from the creation state, the reset operation always produces one fixed
state, independent of which node was focused and of how many transitions
occurred. In test2.vue and part_000 that fixed state equals the
pre-hover creation state; in test4.vue the reset state differs from the
creation state — `resetHighlighting` sets node opacity to
`defaultOpacity` (0.5) although nodes are created without an opacity
attribute (effective opacity 1), while links and labels do return to
their creation values. -/
theorem C5_reset_single_state :
    (∀ (w : ℚ) (ts : List T2.Trans) (s : T2.Style),
        T2.resetHighlighting (T2.applyAll w ts s) = T2.initialStyle)
    ∧ (∀ (w : ℚ) (ts : List P0.Trans) (s : P0.Style),
        P0.resetHighlighting (P0.applyAll w ts s) = P0.initialStyle)
    ∧ (∀ (w : ℚ) (ts : List T4.Trans),
        T4.resetHighlighting (T4.applyAll w ts T4.initialStyle)
          = T4.resetHighlighting T4.initialStyle)
    ∧ (∀ (w : ℚ) (ts : List T4.Trans) (l : SLink),
        (T4.resetHighlighting (T4.applyAll w ts T4.initialStyle)).linkOp l
          = T4.defaultOpacity
        ∧ (T4.resetHighlighting (T4.applyAll w ts T4.initialStyle)).linkSW l
          = T4.initialStyle.linkSW l)
    ∧ (∀ (w : ℚ) (ts : List T4.Trans) (n : SNode),
        (T4.resetHighlighting (T4.applyAll w ts T4.initialStyle)).themeLabelOp n = 1
        ∧ (T4.resetHighlighting (T4.applyAll w ts T4.initialStyle)).yearLabelOp n = 1
        ∧ (T4.resetHighlighting (T4.applyAll w ts T4.initialStyle)).titleLabelOp n = 1
        ∧ (T4.resetHighlighting (T4.applyAll w ts T4.initialStyle)).nodeOp n
          = T4.defaultOpacity) :=
  ⟨fun _ _ _ => rfl,
   fun _ _ _ => rfl,
   fun w ts => T4_reset_applyAll w ts,
   fun w ts l => ⟨rfl, by rw [show (T4.resetHighlighting
      (T4.applyAll w ts T4.initialStyle)).linkSW = (T4.applyAll w ts T4.initialStyle).linkSW
      from rfl, T4_applyAll_linkSW]⟩,
   fun _ _ _ => ⟨rfl, rfl, rfl, rfl⟩⟩

/-- Counterexample to C5 as stated: in test4.vue, after the hover
transition Focused(0) → Idle, a node's opacity is 0.5 (`defaultOpacity`)
although before any hover it was 1 — reset does not restore the opacity
the elements had before any hover. -/
theorem C5_reset_single_state_counterexample :
    (T4.resetHighlighting (T4.highlightThemeFlows 0 100 T4.initialStyle)).nodeOp
        ⟨0, 0, none⟩
      ≠ T4.initialStyle.nodeOp ⟨0, 0, none⟩ := by
  show T4.defaultOpacity ≠ 1
  rw [T4.defaultOpacity]
  norm_num

/-- C6 (corrected): entering Focused(n) for a primary (theme) node n,
from the creation state, behaves as follows. In every variant, exactly
the links with source index n rise to high opacity (0.9) and all other
links drop to 0.1. In test2.vue (and part_000) the highlighted links
also get a thicker stroke, the other primary nodes drop to 0.3, and the
secondary nodes drop to 0.7 — but no label opacity changes at all,
because the label filter reads a property `x` that the bound data does
not have. In test4.vue the stroke-width is untouched, the other primary
nodes AND all secondary nodes drop to the same low `backgroundOpacity`
(0.1, not a middle level), the other primary labels drop to 0.1, and the
secondary (year/title) labels are untouched. -/
theorem C6_theme_highlight (ti : Nat) (w : ℚ) (l : SLink) (n : SNode)
    (hx : n.x = none) :
    ((T2.highlightThemeFlows ti w T2.initialStyle).linkOp l
        = if l.src = ti then 0.9 else 0.1)
    ∧ ((T2.highlightThemeFlows ti w T2.initialStyle).linkSW l
        = if l.src = ti then max 3 (l.width + 1) else max 2 l.width)
    ∧ ((T2.highlightThemeFlows ti w T2.initialStyle).nodeOp n
        = if w / 2 ≤ n.x0 then 0.7
          else if n.x0 < w / 2 ∧ n.index ≠ ti then 0.3 else 1)
    ∧ ((T2.highlightThemeFlows ti w T2.initialStyle).labelOp n = 1)
    ∧ ((P0.highlightThemeFlows ti w P0.initialStyle).linkOp l
        = if l.src = ti then 0.9 else 0.1)
    ∧ ((P0.highlightThemeFlows ti w P0.initialStyle).linkSW l
        = if l.src = ti then max 3 (l.width + 1) else max 2 l.width)
    ∧ ((P0.highlightThemeFlows ti w P0.initialStyle).nodeOp n
        = if w / 2 ≤ n.x0 then 0.7
          else if n.x0 < w / 2 ∧ n.index ≠ ti then 0.3 else 1)
    ∧ ((P0.highlightThemeFlows ti w P0.initialStyle).labelOp n = 1)
    ∧ ((P0.highlightThemeFlows ti w P0.initialStyle).flowLabelOp l
        = if l.src ≠ ti then 0.1 else 1)
    ∧ ((T4.highlightThemeFlows ti w T4.initialStyle).linkOp l
        = if l.src = ti then T4.nodeOpacityHighlight else T4.backgroundOpacity)
    ∧ ((T4.highlightThemeFlows ti w T4.initialStyle).linkSW l = max 4 (l.width + 2))
    ∧ ((T4.highlightThemeFlows ti w T4.initialStyle).nodeOp n
        = if w / 2 ≤ n.x0 then T4.backgroundOpacity
          else if n.x0 < w / 2 ∧ n.index ≠ ti then T4.backgroundOpacity else 1)
    ∧ ((T4.highlightThemeFlows ti w T4.initialStyle).themeLabelOp n
        = if n.index ≠ ti then T4.backgroundOpacity else 1)
    ∧ ((T4.highlightThemeFlows ti w T4.initialStyle).yearLabelOp n = 1)
    ∧ ((T4.highlightThemeFlows ti w T4.initialStyle).titleLabelOp n = 1) := by
  refine ⟨?_, ?_, ?_, ?_, ?_, ?_, ?_, ?_, ?_, ?_, rfl, ?_, ?_, rfl, rfl⟩
  · by_cases h : l.src = ti <;>
      simp [T2.highlightThemeFlows, setWhere, T2.initialStyle, h]
  · by_cases h : l.src = ti <;>
      simp [T2.highlightThemeFlows, setWhere, T2.initialStyle, h]
  · by_cases h1 : w / 2 ≤ n.x0
    · have h2 : ¬ (n.x0 < w / 2) := not_lt.mpr h1
      simp [T2.highlightThemeFlows, setWhere, T2.initialStyle, h1, h2]
    · have h2 : n.x0 < w / 2 := lt_of_not_ge h1
      by_cases h3 : n.index = ti <;>
        simp [T2.highlightThemeFlows, setWhere, T2.initialStyle, h1, h2, h3]
  · simp [T2.highlightThemeFlows, setWhere, T2.initialStyle, jsLtU, hx]
  · by_cases h : l.src = ti <;>
      simp [P0.highlightThemeFlows, setWhere, P0.initialStyle, h]
  · by_cases h : l.src = ti <;>
      simp [P0.highlightThemeFlows, setWhere, P0.initialStyle, h]
  · by_cases h1 : w / 2 ≤ n.x0
    · have h2 : ¬ (n.x0 < w / 2) := not_lt.mpr h1
      simp [P0.highlightThemeFlows, setWhere, P0.initialStyle, h1, h2]
    · have h2 : n.x0 < w / 2 := lt_of_not_ge h1
      by_cases h3 : n.index = ti <;>
        simp [P0.highlightThemeFlows, setWhere, P0.initialStyle, h1, h2, h3]
  · simp [P0.highlightThemeFlows, setWhere, P0.initialStyle, jsLtU, hx]
  · by_cases h : l.src = ti <;>
      simp [P0.highlightThemeFlows, setWhere, P0.initialStyle, h]
  · by_cases h : l.src = ti <;>
      simp [T4.highlightThemeFlows, setWhere, T4.initialStyle, h]
  · by_cases h1 : w / 2 ≤ n.x0
    · have h2 : ¬ (n.x0 < w / 2) := not_lt.mpr h1
      simp [T4.highlightThemeFlows, setWhere, T4.initialStyle, h1, h2]
    · have h2 : n.x0 < w / 2 := lt_of_not_ge h1
      by_cases h3 : n.index = ti <;>
        simp [T4.highlightThemeFlows, setWhere, T4.initialStyle, h1, h2, h3]
  · by_cases h : n.index = ti <;>
      simp [T4.highlightThemeFlows, setWhere, T4.initialStyle, h]

/-- Witness for C6 at a concrete theme index, width, link and node. -/
theorem C6_theme_highlight_witness :
    ((⟨1, 10, none⟩ : SNode).x = none)
    ∧ (((T2.highlightThemeFlows 0 100 T2.initialStyle).linkOp ⟨0, 0, 0, 5⟩
        = if (⟨0, 0, 0, 5⟩ : SLink).src = 0 then 0.9 else 0.1)
    ∧ ((T2.highlightThemeFlows 0 100 T2.initialStyle).linkSW ⟨0, 0, 0, 5⟩
        = if (⟨0, 0, 0, 5⟩ : SLink).src = 0 then max 3 ((⟨0, 0, 0, 5⟩ : SLink).width + 1)
          else max 2 (⟨0, 0, 0, 5⟩ : SLink).width)
    ∧ ((T2.highlightThemeFlows 0 100 T2.initialStyle).nodeOp ⟨1, 10, none⟩
        = if (100 : ℚ) / 2 ≤ (⟨1, 10, none⟩ : SNode).x0 then 0.7
          else if (⟨1, 10, none⟩ : SNode).x0 < (100 : ℚ) / 2
              ∧ (⟨1, 10, none⟩ : SNode).index ≠ 0 then 0.3 else 1)
    ∧ ((T2.highlightThemeFlows 0 100 T2.initialStyle).labelOp ⟨1, 10, none⟩ = 1)
    ∧ ((P0.highlightThemeFlows 0 100 P0.initialStyle).linkOp ⟨0, 0, 0, 5⟩
        = if (⟨0, 0, 0, 5⟩ : SLink).src = 0 then 0.9 else 0.1)
    ∧ ((P0.highlightThemeFlows 0 100 P0.initialStyle).linkSW ⟨0, 0, 0, 5⟩
        = if (⟨0, 0, 0, 5⟩ : SLink).src = 0 then max 3 ((⟨0, 0, 0, 5⟩ : SLink).width + 1)
          else max 2 (⟨0, 0, 0, 5⟩ : SLink).width)
    ∧ ((P0.highlightThemeFlows 0 100 P0.initialStyle).nodeOp ⟨1, 10, none⟩
        = if (100 : ℚ) / 2 ≤ (⟨1, 10, none⟩ : SNode).x0 then 0.7
          else if (⟨1, 10, none⟩ : SNode).x0 < (100 : ℚ) / 2
              ∧ (⟨1, 10, none⟩ : SNode).index ≠ 0 then 0.3 else 1)
    ∧ ((P0.highlightThemeFlows 0 100 P0.initialStyle).labelOp ⟨1, 10, none⟩ = 1)
    ∧ ((P0.highlightThemeFlows 0 100 P0.initialStyle).flowLabelOp ⟨0, 0, 0, 5⟩
        = if (⟨0, 0, 0, 5⟩ : SLink).src ≠ 0 then 0.1 else 1)
    ∧ ((T4.highlightThemeFlows 0 100 T4.initialStyle).linkOp ⟨0, 0, 0, 5⟩
        = if (⟨0, 0, 0, 5⟩ : SLink).src = 0 then T4.nodeOpacityHighlight
          else T4.backgroundOpacity)
    ∧ ((T4.highlightThemeFlows 0 100 T4.initialStyle).linkSW ⟨0, 0, 0, 5⟩
        = max 4 ((⟨0, 0, 0, 5⟩ : SLink).width + 2))
    ∧ ((T4.highlightThemeFlows 0 100 T4.initialStyle).nodeOp ⟨1, 10, none⟩
        = if (100 : ℚ) / 2 ≤ (⟨1, 10, none⟩ : SNode).x0 then T4.backgroundOpacity
          else if (⟨1, 10, none⟩ : SNode).x0 < (100 : ℚ) / 2
              ∧ (⟨1, 10, none⟩ : SNode).index ≠ 0 then T4.backgroundOpacity else 1)
    ∧ ((T4.highlightThemeFlows 0 100 T4.initialStyle).themeLabelOp ⟨1, 10, none⟩
        = if (⟨1, 10, none⟩ : SNode).index ≠ 0 then T4.backgroundOpacity else 1)
    ∧ ((T4.highlightThemeFlows 0 100 T4.initialStyle).yearLabelOp ⟨1, 10, none⟩ = 1)
    ∧ ((T4.highlightThemeFlows 0 100 T4.initialStyle).titleLabelOp ⟨1, 10, none⟩ = 1)) :=
  ⟨rfl, C6_theme_highlight 0 100 ⟨0, 0, 0, 5⟩ ⟨1, 10, none⟩ rfl⟩

/-- Counterexample to C6 as stated: with theme node 0 focused in
test2.vue, the label of the other primary node (index 1) keeps opacity
1 — it is not lowered to 0.3 as the claim requires for other primary
labels — and in test4.vue a secondary node drops to `backgroundOpacity`
(0.1), the same low level as the backgrounded links, not a middle
"dimmed but present" opacity such as 0.7. -/
theorem C6_theme_highlight_counterexample :
    ((T2.highlightThemeFlows 0 100 T2.initialStyle).labelOp ⟨1, 10, none⟩ = 1
      ∧ (T2.highlightThemeFlows 0 100 T2.initialStyle).labelOp ⟨1, 10, none⟩ ≠ 0.3)
    ∧ ((T4.highlightThemeFlows 0 100 T4.initialStyle).nodeOp ⟨5, 90, none⟩
        = T4.backgroundOpacity
      ∧ T4.backgroundOpacity ≠ 0.7) := by
  refine ⟨⟨rfl, ?_⟩, ⟨?_, ?_⟩⟩
  · show (1 : ℚ) ≠ 0.3
    norm_num
  · have h1 : ((100 : ℚ) / 2 ≤ (90 : ℚ)) := by norm_num
    have h2 : ¬ ((90 : ℚ) < (100 : ℚ) / 2) := by norm_num
    simp [T4.highlightThemeFlows, setWhere, T4.initialStyle, h1, h2]
  · rw [T4.backgroundOpacity]
    norm_num

